import Mathlib

/-!
Verification of the command-line Bible API client (`client/client.py`).

The program parses a command line, deterministically maps the parsed
command to a request URL, performs one HTTP GET, and pretty-prints the
decoded JSON body.  We embed the parsing semantics, the URL resolution
logic of `main`, the `request_json` helper, and the output step, and
prove the stated properties of the command-to-URL mapping, the error
paths, and the effect frame.
-/

namespace Client

/-- JSON values as decoded by `response.json()` and re-serialized by
`json.dumps`.  Numbers are modelled as integers (the client treats the
body as opaque, so the number representation never matters for the
claims). -/
inductive Json where
  | null : Json
  | bool (b : Bool) : Json
  | int (n : Int) : Json
  | str (s : String) : Json
  | arr (elts : List Json) : Json
  | obj (members : List (String × Json)) : Json

/-- One lowercase hexadecimal digit, as produced by Python string
formatting. -/
def hexDigit (n : Nat) : Char :=
  if n < 10 then Char.ofNat (48 + n) else Char.ofNat (87 + n)

/-- Four lowercase hexadecimal digits, as in a JSON `\uXXXX` escape. -/
def hex4 (n : Nat) : String :=
  String.mk [hexDigit (n / 4096 % 16), hexDigit (n / 256 % 16),
             hexDigit (n / 16 % 16), hexDigit (n % 16)]

/-- Escape of a single character inside a JSON string literal, following
the `ensure_ascii=True` default of `json.dumps`: the two-character
escapes for quote, backslash and the usual control characters, `\uXXXX`
for every other character outside the printable ASCII range, and a
surrogate pair for code points above the basic multilingual plane. -/
def jsonEscapeChar (c : Char) : String :=
  if c = '"' then "\\\""
  else if c = '\\' then "\\\\"
  else if c = '\n' then "\\n"
  else if c = '\t' then "\\t"
  else if c = '\r' then "\\r"
  else if c.toNat = 8 then "\\b"
  else if c.toNat = 12 then "\\f"
  else if 32 ≤ c.toNat ∧ c.toNat ≤ 126 then String.mk [c]
  else if c.toNat < 65536 then "\\u" ++ hex4 c.toNat
  else
    let v := c.toNat - 65536
    "\\u" ++ hex4 (55296 + v / 1024) ++ "\\u" ++ hex4 (56320 + v % 1024)

/-- A JSON string literal: quotes around the escaped characters. -/
def jsonQuote (s : String) : String :=
  "\"" ++ String.join (s.data.map jsonEscapeChar) ++ "\""

/-- Indentation prefix at nesting level `lvl` for `json.dumps(x, indent=2)`:
two spaces per level. -/
def pad (lvl : Nat) : String :=
  String.mk (List.replicate (2 * lvl) ' ')

mutual
/-- `json.dumps(x, indent=2)` at nesting level `lvl`: scalars are atoms,
empty containers print as `[]` and `\x7b\x7d`, and non-empty containers
put each element on its own line, indented two spaces per level, with
`,` as item separator and `: ` as key separator. -/
def dumpsAt : Json → Nat → String
  | Json.null, _ => "null"
  | Json.bool true, _ => "true"
  | Json.bool false, _ => "false"
  | Json.int n, _ => toString n
  | Json.str s, _ => jsonQuote s
  | Json.arr [], _ => "[]"
  | Json.arr (x :: xs), lvl =>
      "[\n" ++ pad (lvl + 1) ++ dumpsAt x (lvl + 1) ++
        dumpsArrRest xs (lvl + 1) ++ "\n" ++ pad lvl ++ "]"
  | Json.obj [], _ => "\x7b\x7d"
  | Json.obj (kv :: kvs), lvl =>
      "\x7b\n" ++ pad (lvl + 1) ++ jsonQuote kv.1 ++ ": " ++
        dumpsAt kv.2 (lvl + 1) ++ dumpsObjRest kvs (lvl + 1) ++
        "\n" ++ pad lvl ++ "\x7d"

/-- Remaining array elements: `,` item separator, newline, indent, element. -/
def dumpsArrRest : List Json → Nat → String
  | [], _ => ""
  | x :: xs, lvl => ",\n" ++ pad lvl ++ dumpsAt x lvl ++ dumpsArrRest xs lvl

/-- Remaining object members: `,` item separator, newline, indent,
quoted key, `: `, value. -/
def dumpsObjRest : List (String × Json) → Nat → String
  | [], _ => ""
  | kv :: kvs, lvl =>
      ",\n" ++ pad lvl ++ jsonQuote kv.1 ++ ": " ++ dumpsAt kv.2 lvl ++
        dumpsObjRest kvs lvl
end

/-- `json.dumps(x, indent=2)` as called by `main`. -/
def dumps (x : Json) : String := dumpsAt x 0

/-- Default of the global `--server` option. -/
def DEFAULT_SERVER_URL : String := "http://api:4567"

/-- A parsed invocation after `parser.parse_args` succeeds: the five
subcommands with their arguments.  `verse` keeps its optional
`--translation`; `books` and `chapters` carry the parse-time default
`"web"` already applied; `random` keeps its two optional, mutually
exclusive filters. -/
inductive Cmd where
  | verse (reference : String) (translation : Option String) : Cmd
  | translations : Cmd
  | books (translation : String) : Cmd
  | chapters (book : String) (translation : String) : Cmd
  | random (books : Option String) (testament : Option String) : Cmd

/-- The complete result of argument parsing: the `--server` value (with
its default applied) and the parsed subcommand. -/
structure Args where
  server : String
  cmd : Cmd

/-- The command line of one invocation, described structurally: the
value supplied for each option (`none` when the option is absent), the
subcommand name token, and the positional arguments.  A field that the
selected subcommand does not define being `some` models supplying an
argument the subparser does not recognize. -/
structure Invocation where
  server : Option String
  command : String
  reference : Option String
  translation : Option String
  book : Option String
  books : Option String
  testament : Option String

/-- Semantics of `build_parser` followed by `parser.parse_args`.  The
subcommand is required and must be one of the five registered names
(`argparse` rejects any other choice as a usage error); each subparser
requires its positionals, rejects options it does not define, applies
the `default="web"` of `books`/`chapters`, checks the
`choices=["OT", "NT"]` of `--testament`, and enforces the mutually
exclusive group of `random`.  Every failure is an `argparse` usage
error; the message text is abstracted. -/
def parse_args (inv : Invocation) : Except String Args :=
  let server := inv.server.getD DEFAULT_SERVER_URL
  if inv.command = "verse" then
    if inv.book.isSome ∨ inv.books.isSome ∨ inv.testament.isSome then
      Except.error "unrecognized arguments"
    else
      match inv.reference with
      | none => Except.error "the following arguments are required: reference"
      | some r => Except.ok ⟨server, Cmd.verse r inv.translation⟩
  else if inv.command = "translations" then
    if inv.reference.isSome ∨ inv.translation.isSome ∨ inv.book.isSome ∨
        inv.books.isSome ∨ inv.testament.isSome then
      Except.error "unrecognized arguments"
    else Except.ok ⟨server, Cmd.translations⟩
  else if inv.command = "books" then
    if inv.reference.isSome ∨ inv.book.isSome ∨ inv.books.isSome ∨
        inv.testament.isSome then
      Except.error "unrecognized arguments"
    else Except.ok ⟨server, Cmd.books (inv.translation.getD "web")⟩
  else if inv.command = "chapters" then
    if inv.reference.isSome ∨ inv.books.isSome ∨ inv.testament.isSome then
      Except.error "unrecognized arguments"
    else
      match inv.book with
      | none => Except.error "the following arguments are required: book"
      | some b => Except.ok ⟨server, Cmd.chapters b (inv.translation.getD "web")⟩
  else if inv.command = "random" then
    if inv.reference.isSome ∨ inv.translation.isSome ∨ inv.book.isSome then
      Except.error "unrecognized arguments"
    else if inv.books.isSome ∧ inv.testament.isSome then
      Except.error "argument --testament: not allowed with argument --books"
    else
      match inv.testament with
      | none => Except.ok ⟨server, Cmd.random inv.books none⟩
      | some t =>
          if t = "OT" ∨ t = "NT" then
            Except.ok ⟨server, Cmd.random inv.books (some t)⟩
          else Except.error "argument --testament: invalid choice"
  else Except.error ("argument command: invalid choice: " ++ inv.command)

/-- Python truthiness of an optional string value, as in
`if args.translation:` — both `None` and the empty string are falsy. -/
def truthy : Option String → Bool
  | none => false
  | some s => s ≠ ""

/-- `args.server.rstrip("/")`: remove every trailing slash. -/
def rstripSlashes (s : String) : String :=
  String.mk (s.data.reverse.dropWhile (fun c => c = '/')).reverse

/-- `ref.replace(" ", "+")`: since the pattern is a single character,
Python replacement is the character-wise map sending a space to a plus
and leaving every other character unchanged. -/
def replaceSpaces (r : String) : String :=
  String.mk (r.data.map (fun c => if c = ' ' then '+' else c))

/-- The URL construction inlined in `main`, one branch per subcommand. -/
def resolve_url (args : Args) : String :=
  let base := rstripSlashes args.server
  match args.cmd with
  | Cmd.verse reference translation =>
      let url := base ++ "/" ++ replaceSpaces reference
      if truthy translation then
        url ++ "?translation=" ++ translation.getD ""
      else url
  | Cmd.translations => base ++ "/data"
  | Cmd.books translation => base ++ "/data/" ++ translation
  | Cmd.chapters book translation =>
      base ++ "/data/" ++ translation ++ "/" ++ book
  | Cmd.random bks tst =>
      let url := base ++ "/data/web/random"
      if truthy bks then url ++ "/" ++ bks.getD ""
      else if truthy tst then url ++ "/" ++ tst.getD ""
      else url

/-- What the transport returns for a GET: the fields of the `requests`
response object that the client reads.  `body = none` models a response
whose text is not valid JSON, so that `response.json()` raises. -/
structure Response where
  status_code : Nat
  ok : Bool
  body : Option Json

/-- Result of `request_json`. -/
inductive FetchResult where
  | httpError (status : Nat) : FetchResult
  | decodeFailure : FetchResult
  | ok (data : Json) : FetchResult

/-- `request_json(url)` against a transport `w` mapping each URL to its
response: a non-ok response prints the error and exits 1 (reported to
the caller as `httpError`); otherwise `response.json()` either raises
(`decodeFailure`) or yields the decoded value. -/
def request_json (w : String → Response) (url : String) : FetchResult :=
  let response := w url
  if response.ok then
    match response.body with
    | some j => FetchResult.ok j
    | none => FetchResult.decodeFailure
  else FetchResult.httpError response.status_code

/-- How one run of `main` terminates: a `sys.exit`/`parser.error` with
an exit code, an unhandled exception, or a normal return carrying the
decoded value. -/
inductive Outcome where
  | exited (code : Nat) : Outcome
  | raised : Outcome
  | returned (data : Json) : Outcome

/-- Observable behaviour of one run: how it ended, everything written
to the standard output and error streams (`print` appends one newline
to each message), and the URLs fetched, in order. -/
structure RunResult where
  outcome : Outcome
  stdout : String
  stderr : String
  calls : List String

/-- `main(argv)`: parse the arguments (a parse failure prints a usage
message to stderr and exits 2 before any network activity), resolve the
URL of the selected command, perform the single GET via `request_json`,
and on success print the two-space-indented serialization of the
decoded body and return that value. -/
def main (w : String → Response) (inv : Invocation) : RunResult :=
  match parse_args inv with
  | Except.error msg => ⟨Outcome.exited 2, "", msg ++ "\n", []⟩
  | Except.ok args =>
      let url := resolve_url args
      match request_json w url with
      | FetchResult.httpError status =>
          ⟨Outcome.exited 1, "", "Error: HTTP " ++ toString status ++ "\n", [url]⟩
      | FetchResult.decodeFailure => ⟨Outcome.raised, "", "", [url]⟩
      | FetchResult.ok data =>
          ⟨Outcome.returned data, dumps data ++ "\n", "", [url]⟩

/-- `true` exactly when `parser.parse_args` accepts the invocation. -/
def parseOk (inv : Invocation) : Bool :=
  match parse_args inv with
  | Except.ok _ => true
  | Except.error _ => false

/-! ### Concrete fixtures used by witnesses and counterexamples -/

/-- A transport whose every response is HTTP 200 with body `null`. -/
def w200 : String → Response := fun _ => ⟨200, true, some Json.null⟩

/-- A transport whose every response is HTTP 404 with an invalid body. -/
def w404 : String → Response := fun _ => ⟨404, false, none⟩

/-- A transport whose every response is HTTP 200 with body
`\x7b"text": "hi"\x7d`. -/
def wHi : String → Response :=
  fun _ => ⟨200, true, some (Json.obj [("text", Json.str "hi")])⟩

/-- `--server http://h translations`. -/
def invTranslations : Invocation :=
  ⟨some "http://h", "translations", none, none, none, none, none⟩

/-- `random --books JHN,MAT --testament NT`: both mutually exclusive
flags supplied. -/
def invRandomBoth : Invocation :=
  ⟨none, "random", none, none, none, some "JHN,MAT", some "NT"⟩

/-- An invocation whose first token is not a recognized command name. -/
def invUnknown : Invocation :=
  ⟨none, "greet", none, none, none, none, none⟩

/-! ### Helper lemmas -/

/-- Appending a newline never yields the empty string. -/
theorem append_newline_ne_empty (s : String) : s ++ "\n" ≠ "" := by
  intro h
  have h2 : s.data ++ ['\n'] = ([] : List Char) := by
    have h3 := congrArg String.data h
    rwa [String.data_append] at h3
  simp at h2

/-- The head of `dropWhile p` never satisfies `p`. -/
theorem head_of_dropWhile_not (p : Char → Bool) (l : List Char) (c : Char)
    (h : (l.dropWhile p).head? = some c) : p c = false := by
  induction l with
  | nil => simp [List.dropWhile] at h
  | cons a tl ih =>
      rw [List.dropWhile_cons] at h
      by_cases hp : p a = true
      · rw [if_pos hp] at h
        exact ih h
      · rw [if_neg hp] at h
        have hac : a = c := by simpa using h
        subst hac
        cases hpa : p a with
        | false => rfl
        | true => exact absurd hpa hp

/-- A `takeWhile` of the slash test is a block of slashes. -/
theorem takeWhile_slash_replicate (l : List Char) :
    l.takeWhile (fun c => c = '/') =
      List.replicate (l.takeWhile (fun c => c = '/')).length '/' := by
  induction l with
  | nil => rfl
  | cons a tl ih =>
      by_cases h : a = '/'
      · subst h
        rw [List.takeWhile_cons, if_pos (by simp)]
        simp only [List.length_cons, List.replicate_succ]
        exact congrArg (List.cons '/') ih
      · rw [List.takeWhile_cons, if_neg (by simpa using h)]
        rfl

/-! ### Claim theorems -/

/-- Claim C1, counterexample: the claim asserts that whenever a
`--translation` value is given the verse URL is exactly the path
followed by the query suffix built from that value; at the given value
`""` the code (which tests Python truthiness, not presence) produces
the bare path, not the path followed by the empty-valued suffix. -/
theorem c1_verse_empty_counterexample :
    resolve_url ⟨"http://h", Cmd.verse "John 3:16" (some "")⟩ = "http://h/John+3:16"
    ∧ resolve_url ⟨"http://h", Cmd.verse "John 3:16" (some "")⟩ ≠
        "http://h/John+3:16?translation=" := by
  decide

/-- Claim C1, amended: the verse URL is the base followed by the
reference with every space (and nothing else) replaced by a plus, with
no query suffix when `--translation` is absent, and with exactly
`?translation=` followed by the value when a nonempty value is given. -/
theorem c1_verse_url (s r t : String) (ht : t ≠ "") :
    resolve_url ⟨s, Cmd.verse r none⟩ = rstripSlashes s ++ "/" ++ replaceSpaces r
    ∧ resolve_url ⟨s, Cmd.verse r (some t)⟩ =
        rstripSlashes s ++ "/" ++ replaceSpaces r ++ "?translation=" ++ t
    ∧ (replaceSpaces r).data.length = r.data.length
    ∧ ∀ i, (replaceSpaces r).data.get? i =
        (r.data.get? i).map (fun c => if c = ' ' then '+' else c) := by
  have htr : truthy (some t) = true := by simp [truthy, ht]
  refine ⟨rfl, ?_, by simp [replaceSpaces], ?_⟩
  · simp [resolve_url, htr]
  · intro i
    simp [replaceSpaces, List.getElem?_map]

/-- Claim C1 witness at the spec example `John 3:16` and `kjv`. -/
theorem c1_verse_url_witness :
    resolve_url ⟨"http://h", Cmd.verse "John 3:16" none⟩ = "http://h/John+3:16"
    ∧ resolve_url ⟨"http://h", Cmd.verse "John 3:16" (some "kjv")⟩ =
        "http://h/John+3:16?translation=kjv" := by
  have h := c1_verse_url "http://h" "John 3:16" "kjv" (by decide)
  exact ⟨h.1.trans (by rfl), h.2.1.trans (by rfl)⟩

/-- Claim C5: `books` resolves to base/data/translation and `chapters`
to base/data/translation/book, with the translation defaulting to
`web` at parse time when `--translation` is unspecified. -/
theorem c5_books_chapters_url (s bk t : String) :
    parse_args ⟨some s, "books", none, none, none, none, none⟩ =
      Except.ok ⟨s, Cmd.books "web"⟩
    ∧ parse_args ⟨some s, "books", none, some t, none, none, none⟩ =
      Except.ok ⟨s, Cmd.books t⟩
    ∧ parse_args ⟨some s, "chapters", none, none, some bk, none, none⟩ =
      Except.ok ⟨s, Cmd.chapters bk "web"⟩
    ∧ parse_args ⟨some s, "chapters", none, some t, some bk, none, none⟩ =
      Except.ok ⟨s, Cmd.chapters bk t⟩
    ∧ resolve_url ⟨s, Cmd.books t⟩ = rstripSlashes s ++ "/data/" ++ t
    ∧ resolve_url ⟨s, Cmd.chapters bk t⟩ =
        rstripSlashes s ++ "/data/" ++ t ++ "/" ++ bk :=
  ⟨rfl, rfl, rfl, rfl, rfl, rfl⟩

/-- Claim C6, counterexample: the claim asserts that with `--books CSV`
the URL is exactly base/data/web/random/CSV; at the given value `""`
the code (which tests Python truthiness) appends no segment, yielding
the bare random URL rather than one with a trailing slash. -/
theorem c6_random_empty_counterexample :
    resolve_url ⟨"http://h", Cmd.random (some "") none⟩ = "http://h/data/web/random"
    ∧ resolve_url ⟨"http://h", Cmd.random (some "") none⟩ ≠
        "http://h/data/web/random/" := by
  decide

/-- Claim C6, amended: every random URL extends base/data/web/random
(translation fixed to `web`); a nonempty `--books` value appends
exactly one slash-separated segment holding it, a `--testament` value
(necessarily `OT` or `NT` after parsing) likewise, and with neither
filter the URL is exactly base/data/web/random. -/
theorem c6_random_url (s bs t : String) (obs ots : Option String)
    (hbs : bs ≠ "") (ht : t = "OT" ∨ t = "NT") :
    resolve_url ⟨s, Cmd.random (some bs) none⟩ =
      rstripSlashes s ++ "/data/web/random/" ++ bs
    ∧ resolve_url ⟨s, Cmd.random none (some t)⟩ =
        rstripSlashes s ++ "/data/web/random/" ++ t
    ∧ resolve_url ⟨s, Cmd.random none none⟩ = rstripSlashes s ++ "/data/web/random"
    ∧ ∃ suffix, resolve_url ⟨s, Cmd.random obs ots⟩ =
        rstripSlashes s ++ "/data/web/random" ++ suffix := by
  have hb : truthy (some bs) = true := by simp [truthy, hbs]
  have htne : t ≠ "" := by rcases ht with h | h <;> simp [h]
  have hbks : resolve_url ⟨s, Cmd.random (some bs) none⟩ =
      rstripSlashes s ++ "/data/web/random" ++ "/" ++ bs := by
    simp [resolve_url, hb]
  have htst : resolve_url ⟨s, Cmd.random none (some t)⟩ =
      rstripSlashes s ++ "/data/web/random" ++ "/" ++ t := by
    simp [resolve_url, truthy, htne]
  refine ⟨?_, ?_, rfl, ?_⟩
  · rw [hbks, String.append_assoc (rstripSlashes s) "/data/web/random" "/"]
    rfl
  · rw [htst, String.append_assoc (rstripSlashes s) "/data/web/random" "/"]
    rfl
  · by_cases hobs : truthy obs = true
    · refine ⟨"/" ++ obs.getD "", ?_⟩
      have h3 : resolve_url ⟨s, Cmd.random obs ots⟩ =
          rstripSlashes s ++ "/data/web/random" ++ "/" ++ obs.getD "" := by
        simp [resolve_url, hobs]
      rw [h3,
        String.append_assoc (rstripSlashes s ++ "/data/web/random") "/" (obs.getD "")]
    · by_cases hots : truthy ots = true
      · refine ⟨"/" ++ ots.getD "", ?_⟩
        have h3 : resolve_url ⟨s, Cmd.random obs ots⟩ =
            rstripSlashes s ++ "/data/web/random" ++ "/" ++ ots.getD "" := by
          simp [resolve_url, hobs, hots]
        rw [h3,
          String.append_assoc (rstripSlashes s ++ "/data/web/random") "/" (ots.getD "")]
      · refine ⟨"", ?_⟩
        have h3 : resolve_url ⟨s, Cmd.random obs ots⟩ =
            rstripSlashes s ++ "/data/web/random" := by
          simp [resolve_url, hobs, hots]
        rw [h3, String.append_empty]

/-- Claim C6 witness at the spec examples `JHN,MAT` and `NT`. -/
theorem c6_random_url_witness :
    resolve_url ⟨"http://h", Cmd.random (some "JHN,MAT") none⟩ =
      "http://h/data/web/random/JHN,MAT"
    ∧ resolve_url ⟨"http://h", Cmd.random none (some "NT")⟩ =
        "http://h/data/web/random/NT" := by
  have h := c6_random_url "http://h" "JHN,MAT" "NT" none none (by decide) (Or.inr rfl)
  exact ⟨h.1.trans (by rfl), h.2.1.trans (by rfl)⟩

/-- Claim C7: the base is the `--server` value with every trailing
slash removed (the stripped value is an initial segment of the
original, the removed tail is a block of slashes, and the stripped
value never ends in a slash), and `translations` resolves to exactly
base/data. -/
theorem c7_server_rstrip (s : String) :
    (∃ k, s.data = (rstripSlashes s).data ++ List.replicate k '/')
    ∧ (rstripSlashes s).data.getLast? ≠ some '/'
    ∧ resolve_url ⟨s, Cmd.translations⟩ = rstripSlashes s ++ "/data" := by
  refine ⟨?_, ?_, rfl⟩
  · refine ⟨(s.data.reverse.takeWhile (fun c => c = '/')).length, ?_⟩
    conv_lhs => rw [← List.reverse_reverse s.data,
      ← List.takeWhile_append_dropWhile (fun c => c = '/') s.data.reverse]
    rw [List.reverse_append]
    have hrep := takeWhile_slash_replicate s.data.reverse
    calc (s.data.reverse.dropWhile (fun c => c = '/')).reverse ++
          (s.data.reverse.takeWhile (fun c => c = '/')).reverse
        = (rstripSlashes s).data ++
            (s.data.reverse.takeWhile (fun c => c = '/')).reverse := rfl
      _ = (rstripSlashes s).data ++
            (List.replicate (s.data.reverse.takeWhile (fun c => c = '/')).length '/').reverse := by
          rw [← hrep]
      _ = (rstripSlashes s).data ++
            List.replicate (s.data.reverse.takeWhile (fun c => c = '/')).length '/' := by
          rw [List.reverse_replicate]
  · intro hlast
    have hhead : (s.data.reverse.dropWhile (fun c => c = '/')).head? = some '/' := by
      rw [← List.getLast?_reverse]
      exact hlast
    have := head_of_dropWhile_not (fun c => c = '/') s.data.reverse '/' hhead
    simp at this

/-- Claim C10: optional values are tested by Python truthiness, so an
empty `--translation` on `verse` behaves exactly as an absent one (no
query suffix), and an empty `--books` on `random` appends no path
segment and falls through to the `--testament` check. -/
theorem c10_truthiness (s r : String) :
    resolve_url ⟨s, Cmd.verse r (some "")⟩ = resolve_url ⟨s, Cmd.verse r none⟩
    ∧ resolve_url ⟨s, Cmd.verse r (some "")⟩ =
        rstripSlashes s ++ "/" ++ replaceSpaces r
    ∧ resolve_url ⟨s, Cmd.random (some "") none⟩ =
        rstripSlashes s ++ "/data/web/random"
    ∧ resolve_url ⟨s, Cmd.random (some "") (some "NT")⟩ =
        rstripSlashes s ++ "/data/web/random" ++ "/" ++ "NT" :=
  ⟨rfl, rfl, rfl, rfl⟩

/-- Claim C2: supplying both `--books` and `--testament` to `random`
is rejected by the argument parser: the run exits with code 2, writes
a message to the error stream, writes nothing to standard output, and
performs no network call. -/
theorem c2_random_mutex (w : String → Response) (inv : Invocation)
    (hc : inv.command = "random") (hb : inv.books.isSome = true)
    (ht : inv.testament.isSome = true) :
    (main w inv).outcome = Outcome.exited 2
    ∧ (main w inv).stdout = ""
    ∧ (main w inv).stderr ≠ ""
    ∧ (main w inv).calls = [] := by
  obtain ⟨msg, hmsg⟩ : ∃ msg, parse_args inv = Except.error msg := by
    simp only [parse_args, hc]
    by_cases h1 : inv.reference.isSome = true ∨ inv.translation.isSome = true ∨
        inv.book.isSome = true
    · exact ⟨"unrecognized arguments", by simp [h1]⟩
    · exact ⟨"argument --testament: not allowed with argument --books",
        by simp [h1, hb, ht]⟩
  have hm : main w inv = ⟨Outcome.exited 2, "", msg ++ "\n", []⟩ := by
    simp [main, hmsg]
  rw [hm]
  exact ⟨rfl, rfl, append_newline_ne_empty msg, rfl⟩

/-- Claim C2 witness at `random --books JHN,MAT --testament NT`. -/
theorem c2_random_mutex_witness :
    (main w200 invRandomBoth).outcome = Outcome.exited 2
    ∧ (main w200 invRandomBoth).stdout = ""
    ∧ (main w200 invRandomBoth).stderr ≠ ""
    ∧ (main w200 invRandomBoth).calls = [] :=
  c2_random_mutex w200 invRandomBoth rfl rfl rfl

/-- Claim C3: when the single GET returns a non-success status, the
run writes `Error: HTTP ` followed by the decimal status (and the
newline appended by `print`) to the error stream, exits with code 1,
and writes nothing to standard output. -/
theorem c3_http_error (w : String → Response) (inv : Invocation) (args : Args)
    (hp : parse_args inv = Except.ok args)
    (hok : (w (resolve_url args)).ok = false) :
    main w inv = ⟨Outcome.exited 1, "",
      "Error: HTTP " ++ toString (w (resolve_url args)).status_code ++ "\n",
      [resolve_url args]⟩ := by
  simp [main, hp, request_json, hok]

/-- Claim C3 witness: a 404 on `translations`. -/
theorem c3_http_error_witness :
    main w404 invTranslations =
      ⟨Outcome.exited 1, "", "Error: HTTP 404\n", ["http://h/data"]⟩ :=
  c3_http_error w404 invTranslations ⟨"http://h", Cmd.translations⟩ rfl rfl

/-- Claim C4, counterexample: the claim asserts exit code 1 for an
unrecognized command name; the parser (a required subcommand choice)
rejects it as a usage error with exit code 2, a message on the error
stream and no network call — so the exit code is 2, not 1. -/
theorem c4_unknown_counterexample :
    (main w200 invUnknown).outcome = Outcome.exited 2
    ∧ (main w200 invUnknown).outcome ≠ Outcome.exited 1
    ∧ (main w200 invUnknown).stderr ≠ ""
    ∧ (main w200 invUnknown).calls = [] := by
  refine ⟨rfl, ?_, by decide, rfl⟩
  intro h
  have h2 : Outcome.exited 2 = Outcome.exited 1 := Eq.trans (by rfl) h
  injection h2 with h3
  exact absurd h3 (by decide)

/-- Claim C4, amended: for every invocation whose command token is not
one of the five recognized names, the run fails at parse time with
exit code 2, a message on the error stream, nothing on standard
output, and no network call. -/
theorem c4_unknown_command (w : String → Response) (inv : Invocation)
    (h1 : inv.command ≠ "verse") (h2 : inv.command ≠ "translations")
    (h3 : inv.command ≠ "books") (h4 : inv.command ≠ "chapters")
    (h5 : inv.command ≠ "random") :
    (main w inv).outcome = Outcome.exited 2
    ∧ (main w inv).stdout = ""
    ∧ (main w inv).stderr ≠ ""
    ∧ (main w inv).calls = [] := by
  have hp : parse_args inv =
      Except.error ("argument command: invalid choice: " ++ inv.command) := by
    simp only [parse_args, if_neg h1, if_neg h2, if_neg h3, if_neg h4, if_neg h5]
  have hm : main w inv = ⟨Outcome.exited 2, "",
      ("argument command: invalid choice: " ++ inv.command) ++ "\n", []⟩ := by
    simp [main, hp]
  rw [hm]
  exact ⟨rfl, rfl, append_newline_ne_empty _, rfl⟩

/-- Claim C4 witness at the unknown command `greet`. -/
theorem c4_unknown_command_witness :
    (main w200 invUnknown).outcome = Outcome.exited 2
    ∧ (main w200 invUnknown).stdout = ""
    ∧ (main w200 invUnknown).stderr ≠ ""
    ∧ (main w200 invUnknown).calls = [] :=
  c4_unknown_command w200 invUnknown (by decide) (by decide) (by decide)
    (by decide) (by decide)

/-- Claim C8: on HTTP success with a valid JSON body, the run writes
the two-space-indented serialization of the decoded value followed by
one trailing newline to standard output, writes nothing to the error
stream, and returns that same decoded value. -/
theorem c8_success_output (w : String → Response) (inv : Invocation)
    (args : Args) (j : Json)
    (hp : parse_args inv = Except.ok args)
    (hok : (w (resolve_url args)).ok = true)
    (hbody : (w (resolve_url args)).body = some j) :
    main w inv =
      ⟨Outcome.returned j, dumps j ++ "\n", "", [resolve_url args]⟩ := by
  simp [main, hp, request_json, hok, hbody]

/-- Claim C8 witness: the stubbed body from the spec prints as the
two-space-indented object followed by a newline and is returned. -/
theorem c8_success_output_witness :
    main wHi invTranslations =
      ⟨Outcome.returned (Json.obj [("text", Json.str "hi")]),
        "\x7b\n  \"text\": \"hi\"\n\x7d\n", "", ["http://h/data"]⟩ :=
  c8_success_output wHi invTranslations ⟨"http://h", Cmd.translations⟩
    (Json.obj [("text", Json.str "hi")]) rfl rfl rfl

/-- Claim C9: an invocation that passes argument parsing performs
exactly one GET; an invocation that fails argument parsing performs
none. -/
theorem c9_network_frame (w : String → Response) (inv : Invocation) :
    (parseOk inv = true → (main w inv).calls.length = 1)
    ∧ (parseOk inv = false → (main w inv).calls = []) := by
  refine ⟨fun h => ?_, fun h => ?_⟩
  · simp only [parseOk] at h
    cases hp : parse_args inv with
    | error msg => rw [hp] at h; simp at h
    | ok args =>
        cases hr : request_json w (resolve_url args) with
        | httpError st => simp [main, hp, hr]
        | decodeFailure => simp [main, hp, hr]
        | ok d => simp [main, hp, hr]
  · simp only [parseOk] at h
    cases hp : parse_args inv with
    | error msg => simp [main, hp]
    | ok args => rw [hp] at h; simp at h

/-- Claim C9 witness: one call on a parsed invocation, none on a
rejected one. -/
theorem c9_network_frame_witness :
    (main w200 invTranslations).calls.length = 1
    ∧ (main w200 invUnknown).calls = [] :=
  ⟨(c9_network_frame w200 invTranslations).1 rfl,
    (c9_network_frame w200 invUnknown).2 rfl⟩

end Client
